import Mathlib

/-!
Shallow embedding of the escrow program (programs/escrow/src) and proofs
about its settlement operations.

Machine integers (u64/u16) are modelled as `Nat` with explicit bounds:
`u64Max = 2^64 - 1`.  The checked arithmetic helpers mirror Rust's
`checked_mul` / `checked_div` / `checked_sub` / `checked_add` /
`saturating_add` on u64; the raw `-=` / `+=` lamport updates in the fee
branch of `release_funds` are modelled as wrapping (release-mode Rust).

Fallible handlers return `Except EscrowError _`; an error models an
aborted transaction in which no account mutation is committed (the host
ledger's atomicity guarantee, out of scope of the core).
-/

namespace DecentralizedEscrow

def u64Max : Nat := 2 ^ 64 - 1

def checked_mul (a b : Nat) : Option Nat :=
  if a * b ≤ u64Max then some (a * b) else none

def checked_div (a b : Nat) : Option Nat :=
  if b = 0 then none else some (a / b)

def checked_sub (a b : Nat) : Option Nat :=
  if b ≤ a then some (a - b) else none

def checked_add (a b : Nat) : Option Nat :=
  if a + b ≤ u64Max then some (a + b) else none

def saturating_add (a b : Nat) : Nat :=
  min (a + b) u64Max

def wrapping_sub (a b : Nat) : Nat :=
  (a + 2 ^ 64 - b % 2 ^ 64) % 2 ^ 64

def wrapping_add (a b : Nat) : Nat :=
  (a + b) % 2 ^ 64

-- constants.rs
def MIN_ESCROW_AMOUNT : Nat := 10000000

def MAX_ESCROW_AMOUNT : Nat := 1000000000000

-- state/escrow.rs
inductive EscrowStatus
  | Initialized
  | Active
  | Completed
  | Cancelled
  | Disputed
  deriving DecidableEq, Repr

structure Escrow where
  buyer : Nat
  seller : Nat
  amount : Nat
  status : EscrowStatus
  created_at : Int
  bump : Nat
  deriving DecidableEq, Repr

def Escrow.is_active (e : Escrow) : Bool :=
  decide (e.status = EscrowStatus.Active)

def Escrow.can_release (e : Escrow) : Bool :=
  decide (e.status = EscrowStatus.Active)

def Escrow.can_cancel (e : Escrow) : Bool :=
  decide (e.status = EscrowStatus.Initialized ∨ e.status = EscrowStatus.Active)

def Escrow.is_finalized (e : Escrow) : Bool :=
  decide (e.status = EscrowStatus.Completed ∨ e.status = EscrowStatus.Cancelled)

-- state/reputation.rs
structure Reputation where
  user : Nat
  successful_trades : Nat
  failed_trades : Nat
  deriving DecidableEq, Repr

def Reputation.increment_successful (r : Reputation) : Reputation :=
  { r with successful_trades := saturating_add r.successful_trades 1 }

def Reputation.increment_failed (r : Reputation) : Reputation :=
  { r with failed_trades := saturating_add r.failed_trades 1 }

-- state/config.rs
structure Config where
  admin : Nat
  fee_basis_points : Nat
  bump : Nat
  fee_collector_bump : Nat
  deriving DecidableEq, Repr

structure Arbiter where
  arbiter : Nat
  added_by : Nat
  added_at : Int
  is_active : Bool
  bump : Nat
  deriving DecidableEq, Repr

def Arbiter.can_resolve_disputes (a : Arbiter) : Bool :=
  a.is_active

/-- errors.rs.  `InvalidFeeCollector` is the variant referenced by
`release_funds.rs` for a fee-collector address mismatch. -/
inductive EscrowError
  | InvalidState
  | Unauthorized
  | InsufficientFunds
  | AlreadyFinalized
  | InvalidAmount
  | InvalidParties
  | NotBuyer
  | NotSeller
  | Overflow
  | UnauthorizedArbiter
  | InvalidFeeCollector
  deriving DecidableEq, Repr

deriving instance DecidableEq for Except

/-- Error type for `create_escrow`: either a program error raised by a
`require!` in the handler, or a failure of the system-program transfer
that funds the escrow (buyer balance below `amount`). -/
inductive CreateError
  | escrowErr (e : EscrowError)
  | systemTransferFailed
  deriving DecidableEq, Repr

/-- instructions/create_escrow.rs `handler`.  Checks run in source
order: `amount >= MIN_ESCROW_AMOUNT` (else `InsufficientFunds`),
`amount <= MAX_ESCROW_AMOUNT` (else `InvalidAmount`),
`buyer != seller` (else `InvalidParties`); then the system-program
transfer of `amount` from the buyer, then the record is initialised
with status `Active`.  Returns the created record and the buyer's
remaining balance. -/
def create_escrow (buyer seller amount buyerLamports : Nat) (now : Int) (bump : Nat) :
    Except CreateError (Escrow × Nat) :=
  if ¬ (amount ≥ MIN_ESCROW_AMOUNT) then
    Except.error (CreateError.escrowErr EscrowError.InsufficientFunds)
  else if ¬ (amount ≤ MAX_ESCROW_AMOUNT) then
    Except.error (CreateError.escrowErr EscrowError.InvalidAmount)
  else if ¬ (buyer ≠ seller) then
    Except.error (CreateError.escrowErr EscrowError.InvalidParties)
  else if amount ≤ buyerLamports then
    Except.ok
      ({ buyer := buyer, seller := seller, amount := amount,
         status := EscrowStatus.Active, created_at := now, bump := bump },
       buyerLamports - amount)
  else
    Except.error CreateError.systemTransferFailed

/-- The account state a settlement instruction operates on: the escrow
record, the lamport balances of the escrow PDA, buyer, seller and fee
collector, and the two optional reputation accounts.  Accounts an
instruction does not list are simply left untouched by its handler. -/
structure St where
  escrow : Escrow
  escrowLamports : Nat
  buyerLamports : Nat
  sellerLamports : Nat
  feeCollectorLamports : Nat
  buyerRep : Option Reputation
  sellerRep : Option Reputation
  deriving DecidableEq, Repr

/-- Result of `release_funds`: the new account state plus the
`fee_amount` and `seller_amount` the handler computed (also carried by
the emitted `FundsReleased` event). -/
structure ReleaseResult where
  st : St
  fee_amount : Nat
  seller_amount : Nat
  deriving DecidableEq, Repr

/-- The fee block of release_funds.rs (the nested
`if let Some(config) = ... { if let Some(fee_collector) = ... { ... } }`).
Returns `(fee_amount, seller_amount, escrow_lamports, fee_collector_lamports)`
after the optional fee deduction; when either optional account is absent
the initial values `(0, amount, escrowLamports, feeCollectorLamports)`
pass through unchanged. -/
def fee_step (amount escrowLamports feeCollectorLamports : Nat) (config : Option Config)
    (feeCollectorPresent : Bool) (configKeyOk feeCollectorKeyOk : Bool) :
    Except EscrowError (Nat × Nat × Nat × Nat) :=
  match config, feeCollectorPresent with
  | some cfg, true =>
    if ¬ configKeyOk then Except.error EscrowError.InvalidState
    else if ¬ feeCollectorKeyOk then Except.error EscrowError.InvalidFeeCollector
    else
      match checked_mul amount cfg.fee_basis_points with
      | none => Except.error EscrowError.InsufficientFunds
      | some p =>
        match checked_div p 10000 with
        | none => Except.error EscrowError.InsufficientFunds
        | some fee =>
          match checked_sub amount fee with
          | none => Except.error EscrowError.InsufficientFunds
          | some sellerAmt =>
            Except.ok (fee, sellerAmt, wrapping_sub escrowLamports fee,
              wrapping_add feeCollectorLamports fee)
  | _, _ => Except.ok (0, amount, escrowLamports, feeCollectorLamports)

/-- instructions/release_funds.rs: the account constraint
`escrow.can_release() @ InvalidState`, then the handler.  The fee branch
(`fee_step`) runs only when both the optional `config` account and the
optional `fee_collector` account are supplied; it validates the two PDA
addresses (`configKeyOk`, `feeCollectorKeyOk` model the comparisons
against `find_program_address`), computes
`fee = amount.checked_mul(fee_basis_points) / 10000` and
`seller_amount = amount - fee` with checked arithmetic mapped to
`InsufficientFunds`, and moves the fee with raw (wrapping) lamport
updates.  The remaining `seller_amount` then moves from the escrow PDA
to the seller with checked arithmetic, status becomes `Completed`, and
each reputation account that exists is bumped with
`increment_successful`. -/
def release_funds (st : St) (config : Option Config) (feeCollectorPresent : Bool)
    (configKeyOk feeCollectorKeyOk : Bool) : Except EscrowError ReleaseResult :=
  if ¬ st.escrow.can_release then Except.error EscrowError.InvalidState
  else
    match fee_step st.escrow.amount st.escrowLamports st.feeCollectorLamports config
        feeCollectorPresent configKeyOk feeCollectorKeyOk with
    | Except.error e => Except.error e
    | Except.ok (fee, sellerAmt, escrowL, feeL) =>
      match checked_sub escrowL sellerAmt with
      | none => Except.error EscrowError.InsufficientFunds
      | some escrowL2 =>
        match checked_add st.sellerLamports sellerAmt with
        | none => Except.error EscrowError.InsufficientFunds
        | some sellerL2 =>
          Except.ok
            { st := { st with
                escrow := { st.escrow with status := EscrowStatus.Completed },
                escrowLamports := escrowL2,
                sellerLamports := sellerL2,
                feeCollectorLamports := feeL,
                buyerRep := st.buyerRep.map Reputation.increment_successful,
                sellerRep := st.sellerRep.map Reputation.increment_successful },
              fee_amount := fee,
              seller_amount := sellerAmt }

/-- instructions/cancel_escrow.rs: the account constraint
`escrow.can_cancel() @ InvalidState`, then the handler: the full
`amount` moves from the escrow PDA back to the buyer with checked
arithmetic (both failures map to `InsufficientFunds`), and status
becomes `Cancelled`.  The handler takes no reputation accounts and
touches neither reputation. -/
def cancel_escrow (st : St) : Except EscrowError St :=
  if ¬ st.escrow.can_cancel then Except.error EscrowError.InvalidState
  else
    let amount := st.escrow.amount
    match checked_sub st.escrowLamports amount with
    | none => Except.error EscrowError.InsufficientFunds
    | some el =>
      match checked_add st.buyerLamports amount with
      | none => Except.error EscrowError.InsufficientFunds
      | some bl =>
        Except.ok { st with
          escrow := { st.escrow with status := EscrowStatus.Cancelled },
          escrowLamports := el, buyerLamports := bl }

/-- instructions/raise_dispute.rs: the account constraints in source
order — the signing `party` must be the escrow's buyer or seller
(`Unauthorized`), status must be `Active` (`InvalidState`) — then the
handler sets status to `Disputed`. -/
def raise_dispute (st : St) (party : Nat) : Except EscrowError St :=
  if ¬ (st.escrow.buyer = party ∨ st.escrow.seller = party) then
    Except.error EscrowError.Unauthorized
  else if ¬ (st.escrow.status = EscrowStatus.Active) then
    Except.error EscrowError.InvalidState
  else
    Except.ok { st with escrow := { st.escrow with status := EscrowStatus.Disputed } }

/-- instructions/refund_buyer.rs `handler`: requires status `Disputed`
(`InvalidState`), computes the rent-exempt reserve `rentReserve` of the
escrow account, requires `escrow_lamports > rentReserve`
(`InsufficientFunds`), sets the escrow account's lamports to the
reserve and credits `escrow_lamports - rentReserve` to the buyer with
`checked_add` (`Overflow`), sets status `Cancelled`, and bumps each
reputation account that exists with `increment_failed`. -/
def refund_buyer (st : St) (rentReserve : Nat) : Except EscrowError St :=
  if ¬ (st.escrow.status = EscrowStatus.Disputed) then Except.error EscrowError.InvalidState
  else if ¬ (st.escrowLamports > rentReserve) then Except.error EscrowError.InsufficientFunds
  else
    match checked_add st.buyerLamports (st.escrowLamports - rentReserve) with
      | none => Except.error EscrowError.Overflow
      | some bl =>
        Except.ok { st with
          escrow := { st.escrow with status := EscrowStatus.Cancelled },
          escrowLamports := rentReserve,
          buyerLamports := bl,
          buyerRep := st.buyerRep.map Reputation.increment_failed,
          sellerRep := st.sellerRep.map Reputation.increment_failed }

-- instructions/resolve_dispute.rs
inductive DisputeResolution
  | FavorBuyer
  | FavorSeller
  | Split
  deriving DecidableEq, Repr

/-- instructions/resolve_dispute.rs: the account constraints in
declaration order — `escrow.status == Disputed` (`InvalidState`), then
`arbiter_account.can_resolve_disputes()` (`UnauthorizedArbiter`) — then
the handler.  `FavorBuyer` moves the full `amount` to the buyer,
`FavorSeller` to the seller; `Split` moves `half = amount / 2` to the
buyer and `remainder = amount - half` to the seller, all with checked
arithmetic (debit failure `InsufficientFunds`, credit failure
`Overflow`).  Status becomes `Completed`, and existing reputation
accounts are bumped per the resolution: `FavorBuyer` buyer +successful
seller +failed, `FavorSeller` seller +successful buyer +failed,
`Split` both +failed. -/
def resolve_dispute (st : St) (arbiter_account : Arbiter) (resolution : DisputeResolution) :
    Except EscrowError St :=
  if ¬ (st.escrow.status = EscrowStatus.Disputed) then Except.error EscrowError.InvalidState
  else if ¬ arbiter_account.can_resolve_disputes then Except.error EscrowError.UnauthorizedArbiter
  else
    let amount := st.escrow.amount
    match resolution with
    | DisputeResolution.FavorBuyer =>
      match checked_sub st.escrowLamports amount with
      | none => Except.error EscrowError.InsufficientFunds
      | some el =>
        match checked_add st.buyerLamports amount with
        | none => Except.error EscrowError.Overflow
        | some bl =>
          Except.ok { st with
            escrow := { st.escrow with status := EscrowStatus.Completed },
            escrowLamports := el, buyerLamports := bl,
            buyerRep := st.buyerRep.map Reputation.increment_successful,
            sellerRep := st.sellerRep.map Reputation.increment_failed }
    | DisputeResolution.FavorSeller =>
      match checked_sub st.escrowLamports amount with
      | none => Except.error EscrowError.InsufficientFunds
      | some el =>
        match checked_add st.sellerLamports amount with
        | none => Except.error EscrowError.Overflow
        | some sl =>
          Except.ok { st with
            escrow := { st.escrow with status := EscrowStatus.Completed },
            escrowLamports := el, sellerLamports := sl,
            buyerRep := st.buyerRep.map Reputation.increment_failed,
            sellerRep := st.sellerRep.map Reputation.increment_successful }
    | DisputeResolution.Split =>
      match checked_div amount 2 with
      | none => Except.error EscrowError.Overflow
      | some half =>
        match checked_sub amount half with
        | none => Except.error EscrowError.Overflow
        | some remainder =>
          match checked_sub st.escrowLamports amount with
          | none => Except.error EscrowError.InsufficientFunds
          | some el =>
            match checked_add st.buyerLamports half with
            | none => Except.error EscrowError.Overflow
            | some bl =>
              match checked_add st.sellerLamports remainder with
              | none => Except.error EscrowError.Overflow
              | some sl =>
                Except.ok { st with
                  escrow := { st.escrow with status := EscrowStatus.Completed },
                  escrowLamports := el, buyerLamports := bl, sellerLamports := sl,
                  buyerRep := st.buyerRep.map Reputation.increment_failed,
                  sellerRep := st.sellerRep.map Reputation.increment_failed }

/-! ### Characterizations of the checked-arithmetic helpers -/

theorem checked_mul_eq_some {a b c : Nat} :
    checked_mul a b = some c ↔ (a * b ≤ u64Max ∧ c = a * b) := by
  unfold checked_mul
  split <;> simp_all [eq_comm]

theorem checked_div_eq_some {a b c : Nat} :
    checked_div a b = some c ↔ (b ≠ 0 ∧ c = a / b) := by
  unfold checked_div
  split <;> simp_all [eq_comm]

theorem checked_sub_eq_some {a b c : Nat} :
    checked_sub a b = some c ↔ (b ≤ a ∧ c = a - b) := by
  unfold checked_sub
  split <;> simp_all [eq_comm]

theorem checked_add_eq_some {a b c : Nat} :
    checked_add a b = some c ↔ (a + b ≤ u64Max ∧ c = a + b) := by
  unfold checked_add
  split <;> simp_all [eq_comm]

theorem saturating_add_one_of_lt {a : Nat} (h : a < u64Max) :
    saturating_add a 1 = a + 1 := by
  unfold saturating_add
  omega

theorem saturating_add_one_max :
    saturating_add u64Max 1 = u64Max := by
  unfold saturating_add
  omega

/-! ### Characterizations of the fee block -/

theorem fee_step_no_config (amount el fl : Nat) (p ckOk fkOk : Bool) :
    fee_step amount el fl none p ckOk fkOk = Except.ok (0, amount, el, fl) := by
  unfold fee_step
  cases p <;> rfl

theorem fee_step_no_collector (amount el fl : Nat) (config : Option Config) (ckOk fkOk : Bool) :
    fee_step amount el fl config false ckOk fkOk = Except.ok (0, amount, el, fl) := by
  unfold fee_step
  cases config <;> rfl

theorem fee_step_ok_elim {amount el fl : Nat} {cfg : Config} {ckOk fkOk : Bool}
    {fee sellerAmt el2 fl2 : Nat}
    (h : fee_step amount el fl (some cfg) true ckOk fkOk = Except.ok (fee, sellerAmt, el2, fl2)) :
    fee = amount * cfg.fee_basis_points / 10000 ∧
    fee ≤ amount ∧
    sellerAmt = amount - fee ∧
    amount * cfg.fee_basis_points ≤ u64Max ∧
    el2 = wrapping_sub el fee ∧
    fl2 = wrapping_add fl fee := by
  simp only [fee_step] at h
  split at h
  · simp at h
  split at h
  · simp at h
  cases hmul : checked_mul amount cfg.fee_basis_points with
  | none =>
    simp only [hmul] at h
    exact Except.noConfusion h
  | some p =>
    simp only [hmul] at h
    cases hdiv : checked_div p 10000 with
    | none =>
      simp only [hdiv] at h
      exact Except.noConfusion h
    | some fee2 =>
      simp only [hdiv] at h
      cases hsub : checked_sub amount fee2 with
      | none =>
        simp only [hsub] at h
        exact Except.noConfusion h
      | some sa =>
        simp only [hsub, Except.ok.injEq, Prod.mk.injEq] at h
        rw [checked_mul_eq_some] at hmul
        rw [checked_div_eq_some] at hdiv
        rw [checked_sub_eq_some] at hsub
        obtain ⟨h1, h2, h3, h4⟩ := h
        subst h1 h2 h3 h4
        obtain ⟨hle, hp2⟩ := hmul
        subst hp2
        obtain ⟨-, hd2⟩ := hdiv
        subst hd2
        obtain ⟨hsle, hs2⟩ := hsub
        subst hs2
        exact ⟨rfl, hsle, rfl, hle, rfl, rfl⟩

/-! ### Characterizations of the settlement handlers -/

theorem release_funds_ok_elim {st : St} {config : Option Config} {p ckOk fkOk : Bool}
    {r : ReleaseResult}
    (h : release_funds st config p ckOk fkOk = Except.ok r) :
    st.escrow.status = EscrowStatus.Active ∧
    ∃ fee sellerAmt escrowL feeL,
      fee_step st.escrow.amount st.escrowLamports st.feeCollectorLamports config p ckOk fkOk
        = Except.ok (fee, sellerAmt, escrowL, feeL) ∧
      sellerAmt ≤ escrowL ∧
      st.sellerLamports + sellerAmt ≤ u64Max ∧
      r = { st := { st with
              escrow := { st.escrow with status := EscrowStatus.Completed },
              escrowLamports := escrowL - sellerAmt,
              sellerLamports := st.sellerLamports + sellerAmt,
              feeCollectorLamports := feeL,
              buyerRep := st.buyerRep.map Reputation.increment_successful,
              sellerRep := st.sellerRep.map Reputation.increment_successful },
            fee_amount := fee, seller_amount := sellerAmt } := by
  unfold release_funds at h
  split at h
  · exact Except.noConfusion h
  next hrel =>
    have hst : st.escrow.status = EscrowStatus.Active := by
      simpa [Escrow.can_release] using hrel
    refine ⟨hst, ?_⟩
    cases hfs : fee_step st.escrow.amount st.escrowLamports st.feeCollectorLamports config p
        ckOk fkOk with
    | error e =>
      simp only [hfs] at h
      exact Except.noConfusion h
    | ok q =>
      obtain ⟨fee, sellerAmt, escrowL, feeL⟩ := q
      simp only [hfs] at h
      cases hsub : checked_sub escrowL sellerAmt with
      | none =>
        simp only [hsub] at h
        exact Except.noConfusion h
      | some el2 =>
        simp only [hsub] at h
        cases hadd : checked_add st.sellerLamports sellerAmt with
        | none =>
          simp only [hadd] at h
          exact Except.noConfusion h
        | some sl2 =>
          simp only [hadd, Except.ok.injEq] at h
          rw [checked_sub_eq_some] at hsub
          rw [checked_add_eq_some] at hadd
          obtain ⟨hle, hel2⟩ := hsub
          obtain ⟨hmax, hsl2⟩ := hadd
          subst hel2 hsl2
          exact ⟨fee, sellerAmt, escrowL, feeL, rfl, hle, hmax, h.symm⟩

theorem release_funds_ok_intro (st : St) (config : Option Config) (p ckOk fkOk : Bool)
    (fee sellerAmt escrowL feeL : Nat)
    (hst : st.escrow.status = EscrowStatus.Active)
    (hfs : fee_step st.escrow.amount st.escrowLamports st.feeCollectorLamports config p ckOk fkOk
      = Except.ok (fee, sellerAmt, escrowL, feeL))
    (hle : sellerAmt ≤ escrowL)
    (hmax : st.sellerLamports + sellerAmt ≤ u64Max) :
    release_funds st config p ckOk fkOk = Except.ok
      { st := { st with
          escrow := { st.escrow with status := EscrowStatus.Completed },
          escrowLamports := escrowL - sellerAmt,
          sellerLamports := st.sellerLamports + sellerAmt,
          feeCollectorLamports := feeL,
          buyerRep := st.buyerRep.map Reputation.increment_successful,
          sellerRep := st.sellerRep.map Reputation.increment_successful },
        fee_amount := fee, seller_amount := sellerAmt } := by
  have h1 : checked_sub escrowL sellerAmt = some (escrowL - sellerAmt) :=
    checked_sub_eq_some.mpr ⟨hle, rfl⟩
  have h2 : checked_add st.sellerLamports sellerAmt = some (st.sellerLamports + sellerAmt) :=
    checked_add_eq_some.mpr ⟨hmax, rfl⟩
  unfold release_funds
  rw [if_neg (by simp [Escrow.can_release, hst])]
  simp only [hfs, h1, h2]

theorem release_funds_not_active {st : St} (config : Option Config) (p ckOk fkOk : Bool)
    (h : st.escrow.status ≠ EscrowStatus.Active) :
    release_funds st config p ckOk fkOk = Except.error EscrowError.InvalidState := by
  unfold release_funds
  rw [if_pos (by simp [Escrow.can_release, h])]

theorem cancel_escrow_ok_elim {st : St} {st2 : St}
    (h : cancel_escrow st = Except.ok st2) :
    (st.escrow.status = EscrowStatus.Initialized ∨ st.escrow.status = EscrowStatus.Active) ∧
    st.escrow.amount ≤ st.escrowLamports ∧
    st.buyerLamports + st.escrow.amount ≤ u64Max ∧
    st2 = { st with
      escrow := { st.escrow with status := EscrowStatus.Cancelled },
      escrowLamports := st.escrowLamports - st.escrow.amount,
      buyerLamports := st.buyerLamports + st.escrow.amount } := by
  unfold cancel_escrow at h
  split at h
  · exact Except.noConfusion h
  next hcan =>
    have hst : st.escrow.status = EscrowStatus.Initialized ∨
        st.escrow.status = EscrowStatus.Active :=
      or_iff_not_imp_left.mpr (by simpa [Escrow.can_cancel] using hcan)
    refine ⟨hst, ?_⟩
    cases hsub : checked_sub st.escrowLamports st.escrow.amount with
    | none =>
      simp only [hsub] at h
      exact Except.noConfusion h
    | some el =>
      simp only [hsub] at h
      cases hadd : checked_add st.buyerLamports st.escrow.amount with
      | none =>
        simp only [hadd] at h
        exact Except.noConfusion h
      | some bl =>
        simp only [hadd, Except.ok.injEq] at h
        rw [checked_sub_eq_some] at hsub
        rw [checked_add_eq_some] at hadd
        obtain ⟨hle, hel⟩ := hsub
        obtain ⟨hmax, hbl⟩ := hadd
        subst hel hbl
        exact ⟨hle, hmax, h.symm⟩

theorem cancel_escrow_ok_intro (st : St)
    (hst : st.escrow.status = EscrowStatus.Initialized ∨ st.escrow.status = EscrowStatus.Active)
    (hle : st.escrow.amount ≤ st.escrowLamports)
    (hmax : st.buyerLamports + st.escrow.amount ≤ u64Max) :
    cancel_escrow st = Except.ok { st with
      escrow := { st.escrow with status := EscrowStatus.Cancelled },
      escrowLamports := st.escrowLamports - st.escrow.amount,
      buyerLamports := st.buyerLamports + st.escrow.amount } := by
  have h1 : checked_sub st.escrowLamports st.escrow.amount
      = some (st.escrowLamports - st.escrow.amount) := checked_sub_eq_some.mpr ⟨hle, rfl⟩
  have h2 : checked_add st.buyerLamports st.escrow.amount
      = some (st.buyerLamports + st.escrow.amount) := checked_add_eq_some.mpr ⟨hmax, rfl⟩
  unfold cancel_escrow
  rw [if_neg (by simp only [Escrow.can_cancel, decide_eq_true_eq, not_not]; exact hst)]
  simp only [h1, h2]

theorem cancel_escrow_not_cancellable {st : St}
    (h : st.escrow.status ≠ EscrowStatus.Initialized ∧ st.escrow.status ≠ EscrowStatus.Active) :
    cancel_escrow st = Except.error EscrowError.InvalidState := by
  unfold cancel_escrow
  rw [if_pos (by simp [Escrow.can_cancel, h.1, h.2])]

theorem refund_buyer_ok_elim {st : St} {rentReserve : Nat} {st2 : St}
    (h : refund_buyer st rentReserve = Except.ok st2) :
    st.escrow.status = EscrowStatus.Disputed ∧
    rentReserve < st.escrowLamports ∧
    st.buyerLamports + (st.escrowLamports - rentReserve) ≤ u64Max ∧
    st2 = { st with
      escrow := { st.escrow with status := EscrowStatus.Cancelled },
      escrowLamports := rentReserve,
      buyerLamports := st.buyerLamports + (st.escrowLamports - rentReserve),
      buyerRep := st.buyerRep.map Reputation.increment_failed,
      sellerRep := st.sellerRep.map Reputation.increment_failed } := by
  unfold refund_buyer at h
  split at h
  · exact Except.noConfusion h
  next hst =>
    rw [not_not] at hst
    refine ⟨hst, ?_⟩
    split at h
    · exact Except.noConfusion h
    next hgt =>
      rw [not_not] at hgt
      refine ⟨hgt, ?_⟩
      cases hadd : checked_add st.buyerLamports (st.escrowLamports - rentReserve) with
      | none =>
        simp only [hadd] at h
        exact Except.noConfusion h
      | some bl =>
        simp only [hadd, Except.ok.injEq] at h
        rw [checked_add_eq_some] at hadd
        obtain ⟨hmax, hbl⟩ := hadd
        subst hbl
        exact ⟨hmax, h.symm⟩

theorem refund_buyer_ok_intro (st : St) (rentReserve : Nat)
    (hst : st.escrow.status = EscrowStatus.Disputed)
    (hgt : rentReserve < st.escrowLamports)
    (hmax : st.buyerLamports + (st.escrowLamports - rentReserve) ≤ u64Max) :
    refund_buyer st rentReserve = Except.ok { st with
      escrow := { st.escrow with status := EscrowStatus.Cancelled },
      escrowLamports := rentReserve,
      buyerLamports := st.buyerLamports + (st.escrowLamports - rentReserve),
      buyerRep := st.buyerRep.map Reputation.increment_failed,
      sellerRep := st.sellerRep.map Reputation.increment_failed } := by
  have h1 : checked_add st.buyerLamports (st.escrowLamports - rentReserve)
      = some (st.buyerLamports + (st.escrowLamports - rentReserve)) :=
    checked_add_eq_some.mpr ⟨hmax, rfl⟩
  unfold refund_buyer
  rw [if_neg (by simp [hst])]
  rw [if_neg (by simp only [not_not]; exact hgt)]
  simp only [h1]

theorem refund_buyer_not_disputed {st : St} (rentReserve : Nat)
    (h : st.escrow.status ≠ EscrowStatus.Disputed) :
    refund_buyer st rentReserve = Except.error EscrowError.InvalidState := by
  unfold refund_buyer
  rw [if_pos (by simp [h])]

theorem refund_buyer_insufficient {st : St} {rentReserve : Nat}
    (hst : st.escrow.status = EscrowStatus.Disputed)
    (h : st.escrowLamports ≤ rentReserve) :
    refund_buyer st rentReserve = Except.error EscrowError.InsufficientFunds := by
  unfold refund_buyer
  rw [if_neg (by simp [hst])]
  rw [if_pos (by simp only [not_not, gt_iff_lt, not_lt]; exact h)]

theorem raise_dispute_ok_elim {st : St} {party : Nat} {st2 : St}
    (h : raise_dispute st party = Except.ok st2) :
    (st.escrow.buyer = party ∨ st.escrow.seller = party) ∧
    st.escrow.status = EscrowStatus.Active ∧
    st2 = { st with escrow := { st.escrow with status := EscrowStatus.Disputed } } := by
  unfold raise_dispute at h
  split at h
  · exact Except.noConfusion h
  next hauth =>
    rw [not_not] at hauth
    split at h
    · exact Except.noConfusion h
    next hact =>
      rw [not_not] at hact
      simp only [Except.ok.injEq] at h
      exact ⟨hauth, hact, h.symm⟩

theorem raise_dispute_not_active {st : St} {party : Nat}
    (hauth : st.escrow.buyer = party ∨ st.escrow.seller = party)
    (h : st.escrow.status ≠ EscrowStatus.Active) :
    raise_dispute st party = Except.error EscrowError.InvalidState := by
  unfold raise_dispute
  rw [if_neg (by simp only [not_not]; exact hauth)]
  rw [if_pos h]

theorem resolve_dispute_not_disputed {st : St} (arb : Arbiter) (res : DisputeResolution)
    (h : st.escrow.status ≠ EscrowStatus.Disputed) :
    resolve_dispute st arb res = Except.error EscrowError.InvalidState := by
  unfold resolve_dispute
  rw [if_pos (by simp [h])]

theorem resolve_dispute_split_ok_elim {st : St} {arb : Arbiter} {st2 : St}
    (h : resolve_dispute st arb DisputeResolution.Split = Except.ok st2) :
    st.escrow.status = EscrowStatus.Disputed ∧
    arb.is_active = true ∧
    st.escrow.amount ≤ st.escrowLamports ∧
    st.buyerLamports + st.escrow.amount / 2 ≤ u64Max ∧
    st.sellerLamports + (st.escrow.amount - st.escrow.amount / 2) ≤ u64Max ∧
    st2 = { st with
      escrow := { st.escrow with status := EscrowStatus.Completed },
      escrowLamports := st.escrowLamports - st.escrow.amount,
      buyerLamports := st.buyerLamports + st.escrow.amount / 2,
      sellerLamports := st.sellerLamports + (st.escrow.amount - st.escrow.amount / 2),
      buyerRep := st.buyerRep.map Reputation.increment_failed,
      sellerRep := st.sellerRep.map Reputation.increment_failed } := by
  unfold resolve_dispute at h
  split at h
  · exact Except.noConfusion h
  next hst =>
    rw [not_not] at hst
    split at h
    · exact Except.noConfusion h
    next hact =>
      have harb : arb.is_active = true := by
        simpa [Arbiter.can_resolve_disputes] using hact
      refine ⟨hst, harb, ?_⟩
      have hdiv : checked_div st.escrow.amount 2 = some (st.escrow.amount / 2) :=
        checked_div_eq_some.mpr ⟨by omega, rfl⟩
      simp only [hdiv] at h
      cases hs1 : checked_sub st.escrow.amount (st.escrow.amount / 2) with
      | none =>
        simp only [hs1] at h
        exact Except.noConfusion h
      | some remainder =>
        simp only [hs1] at h
        cases hs2 : checked_sub st.escrowLamports st.escrow.amount with
        | none =>
          simp only [hs2] at h
          exact Except.noConfusion h
        | some el =>
          simp only [hs2] at h
          cases ha1 : checked_add st.buyerLamports (st.escrow.amount / 2) with
          | none =>
            simp only [ha1] at h
            exact Except.noConfusion h
          | some bl =>
            simp only [ha1] at h
            cases ha2 : checked_add st.sellerLamports remainder with
            | none =>
              simp only [ha2] at h
              exact Except.noConfusion h
            | some sl =>
              simp only [ha2, Except.ok.injEq] at h
              rw [checked_sub_eq_some] at hs1 hs2
              rw [checked_add_eq_some] at ha1 ha2
              obtain ⟨-, hrem⟩ := hs1
              subst hrem
              obtain ⟨hle, hel⟩ := hs2
              subst hel
              obtain ⟨hb, hbl⟩ := ha1
              subst hbl
              obtain ⟨hsmax, hsl⟩ := ha2
              subst hsl
              exact ⟨hle, hb, hsmax, h.symm⟩

theorem resolve_dispute_split_ok_intro (st : St) (arb : Arbiter)
    (hst : st.escrow.status = EscrowStatus.Disputed)
    (harb : arb.is_active = true)
    (hle : st.escrow.amount ≤ st.escrowLamports)
    (hb : st.buyerLamports + st.escrow.amount / 2 ≤ u64Max)
    (hs : st.sellerLamports + (st.escrow.amount - st.escrow.amount / 2) ≤ u64Max) :
    resolve_dispute st arb DisputeResolution.Split = Except.ok { st with
      escrow := { st.escrow with status := EscrowStatus.Completed },
      escrowLamports := st.escrowLamports - st.escrow.amount,
      buyerLamports := st.buyerLamports + st.escrow.amount / 2,
      sellerLamports := st.sellerLamports + (st.escrow.amount - st.escrow.amount / 2),
      buyerRep := st.buyerRep.map Reputation.increment_failed,
      sellerRep := st.sellerRep.map Reputation.increment_failed } := by
  have hdiv : checked_div st.escrow.amount 2 = some (st.escrow.amount / 2) :=
    checked_div_eq_some.mpr ⟨by omega, rfl⟩
  have h1 : checked_sub st.escrow.amount (st.escrow.amount / 2)
      = some (st.escrow.amount - st.escrow.amount / 2) :=
    checked_sub_eq_some.mpr ⟨Nat.div_le_self _ _, rfl⟩
  have h2 : checked_sub st.escrowLamports st.escrow.amount
      = some (st.escrowLamports - st.escrow.amount) := checked_sub_eq_some.mpr ⟨hle, rfl⟩
  have h3 : checked_add st.buyerLamports (st.escrow.amount / 2)
      = some (st.buyerLamports + st.escrow.amount / 2) := checked_add_eq_some.mpr ⟨hb, rfl⟩
  have h4 : checked_add st.sellerLamports (st.escrow.amount - st.escrow.amount / 2)
      = some (st.sellerLamports + (st.escrow.amount - st.escrow.amount / 2)) :=
    checked_add_eq_some.mpr ⟨hs, rfl⟩
  unfold resolve_dispute
  rw [if_neg (by simp [hst])]
  rw [if_neg (by simp [Arbiter.can_resolve_disputes, harb])]
  simp only [hdiv, h1, h2, h3, h4]

theorem resolve_dispute_favor_buyer_ok_elim {st : St} {arb : Arbiter} {st2 : St}
    (h : resolve_dispute st arb DisputeResolution.FavorBuyer = Except.ok st2) :
    st.escrow.status = EscrowStatus.Disputed ∧
    st.escrow.amount ≤ st.escrowLamports ∧
    st.buyerLamports + st.escrow.amount ≤ u64Max ∧
    st2 = { st with
      escrow := { st.escrow with status := EscrowStatus.Completed },
      escrowLamports := st.escrowLamports - st.escrow.amount,
      buyerLamports := st.buyerLamports + st.escrow.amount,
      buyerRep := st.buyerRep.map Reputation.increment_successful,
      sellerRep := st.sellerRep.map Reputation.increment_failed } := by
  unfold resolve_dispute at h
  split at h
  · exact Except.noConfusion h
  next hst =>
    rw [not_not] at hst
    split at h
    · exact Except.noConfusion h
    next hact =>
      refine ⟨hst, ?_⟩
      cases hs2 : checked_sub st.escrowLamports st.escrow.amount with
      | none =>
        simp only [hs2] at h
        exact Except.noConfusion h
      | some el =>
        simp only [hs2] at h
        cases ha1 : checked_add st.buyerLamports st.escrow.amount with
        | none =>
          simp only [ha1] at h
          exact Except.noConfusion h
        | some bl =>
          simp only [ha1, Except.ok.injEq] at h
          rw [checked_sub_eq_some] at hs2
          rw [checked_add_eq_some] at ha1
          obtain ⟨hle, hel⟩ := hs2
          subst hel
          obtain ⟨hb, hbl⟩ := ha1
          subst hbl
          exact ⟨hle, hb, h.symm⟩

theorem resolve_dispute_favor_seller_ok_elim {st : St} {arb : Arbiter} {st2 : St}
    (h : resolve_dispute st arb DisputeResolution.FavorSeller = Except.ok st2) :
    st.escrow.status = EscrowStatus.Disputed ∧
    st.escrow.amount ≤ st.escrowLamports ∧
    st.sellerLamports + st.escrow.amount ≤ u64Max ∧
    st2 = { st with
      escrow := { st.escrow with status := EscrowStatus.Completed },
      escrowLamports := st.escrowLamports - st.escrow.amount,
      sellerLamports := st.sellerLamports + st.escrow.amount,
      buyerRep := st.buyerRep.map Reputation.increment_failed,
      sellerRep := st.sellerRep.map Reputation.increment_successful } := by
  unfold resolve_dispute at h
  split at h
  · exact Except.noConfusion h
  next hst =>
    rw [not_not] at hst
    split at h
    · exact Except.noConfusion h
    next hact =>
      refine ⟨hst, ?_⟩
      cases hs2 : checked_sub st.escrowLamports st.escrow.amount with
      | none =>
        simp only [hs2] at h
        exact Except.noConfusion h
      | some el =>
        simp only [hs2] at h
        cases ha1 : checked_add st.sellerLamports st.escrow.amount with
        | none =>
          simp only [ha1] at h
          exact Except.noConfusion h
        | some sl =>
          simp only [ha1, Except.ok.injEq] at h
          rw [checked_sub_eq_some] at hs2
          rw [checked_add_eq_some] at ha1
          obtain ⟨hle, hel⟩ := hs2
          subst hel
          obtain ⟨hb, hsl⟩ := ha1
          subst hsl
          exact ⟨hle, hb, h.symm⟩

/-! ### Concrete states used to instantiate the theorems -/

def stActive : St :=
  { escrow := { buyer := 1, seller := 2, amount := 10000000,
                status := EscrowStatus.Active, created_at := 0, bump := 255 },
    escrowLamports := 12000000, buyerLamports := 0, sellerLamports := 0,
    feeCollectorLamports := 0,
    buyerRep := some { user := 1, successful_trades := 3, failed_trades := 4 },
    sellerRep := some { user := 2, successful_trades := 5, failed_trades := 6 } }

def stDisputed : St :=
  { stActive with escrow := { stActive.escrow with status := EscrowStatus.Disputed } }

def stCompleted : St :=
  { stActive with escrow := { stActive.escrow with status := EscrowStatus.Completed } }

def cfgDemo : Config :=
  { admin := 9, fee_basis_points := 250, bump := 1, fee_collector_bump := 2 }

def arbDemo : Arbiter :=
  { arbiter := 3, added_by := 9, added_at := 0, is_active := true, bump := 7 }

/-- The result of releasing `stActive` with `cfgDemo` (250 bp) and a fee
collector supplied: fee 250000, seller amount 9750000. -/
def releaseDemoResult : ReleaseResult :=
  { st :=
      { escrow :=
          { buyer := 1, seller := 2, amount := 10000000,
            status := EscrowStatus.Completed, created_at := 0, bump := 255 },
        escrowLamports := 2000000, buyerLamports := 0, sellerLamports := 9750000,
        feeCollectorLamports := 250000,
        buyerRep := some { user := 1, successful_trades := 4, failed_trades := 4 },
        sellerRep := some { user := 2, successful_trades := 6, failed_trades := 6 } },
    fee_amount := 250000, seller_amount := 9750000 }

/-- The result of resolving `stDisputed` with `Split`: 5000000 to each party,
both reputations marked failed. -/
def splitDemoResult : St :=
  { escrow :=
      { buyer := 1, seller := 2, amount := 10000000,
        status := EscrowStatus.Completed, created_at := 0, bump := 255 },
    escrowLamports := 2000000, buyerLamports := 5000000, sellerLamports := 5000000,
    feeCollectorLamports := 0,
    buyerRep := some { user := 1, successful_trades := 3, failed_trades := 5 },
    sellerRep := some { user := 2, successful_trades := 5, failed_trades := 7 } }

/-- The result of releasing `stActive` with no config/fee collector: no fee,
the seller receives the full 10000000. -/
def releaseNoFeeDemoResult : ReleaseResult :=
  { st :=
      { escrow :=
          { buyer := 1, seller := 2, amount := 10000000,
            status := EscrowStatus.Completed, created_at := 0, bump := 255 },
        escrowLamports := 2000000, buyerLamports := 0, sellerLamports := 10000000,
        feeCollectorLamports := 0,
        buyerRep := some { user := 1, successful_trades := 4, failed_trades := 4 },
        sellerRep := some { user := 2, successful_trades := 6, failed_trades := 6 } },
    fee_amount := 0, seller_amount := 10000000 }

/-- The result of cancelling `stActive`: the full amount back to the buyer,
reputations untouched. -/
def cancelDemoResult : St :=
  { stActive with
    escrow := { stActive.escrow with status := EscrowStatus.Cancelled },
    escrowLamports := 2000000, buyerLamports := 10000000 }

/-- The result of refunding `stDisputed` with rent reserve 2000000: the
available 10000000 back to the buyer, both reputations marked failed. -/
def refundDemoResult : St :=
  { escrow :=
      { buyer := 1, seller := 2, amount := 10000000,
        status := EscrowStatus.Cancelled, created_at := 0, bump := 255 },
    escrowLamports := 2000000, buyerLamports := 10000000, sellerLamports := 0,
    feeCollectorLamports := 0,
    buyerRep := some { user := 1, successful_trades := 3, failed_trades := 5 },
    sellerRep := some { user := 2, successful_trades := 5, failed_trades := 7 } }

/-- Two escrow records agree on every field except possibly `status`. -/
def SameCore (a b : Escrow) : Prop :=
  a.buyer = b.buyer ∧ a.seller = b.seller ∧ a.amount = b.amount ∧
  a.created_at = b.created_at ∧ a.bump = b.bump

/-! ### Claim theorems -/

/-- Claim C1: for every successful `release_funds` with a supplied config and
fee collector, the computed fee equals `floor(amount * fee_basis_points / 10000)`,
the seller amount equals `amount - fee`, and `fee + seller_amount = amount`
exactly, for every escrow amount and every `fee_basis_points ∈ [0, 1000]`. -/
theorem release_funds_fee_conservation (st : St) (cfg : Config) (ckOk fkOk : Bool)
    (r : ReleaseResult)
    (hbp : cfg.fee_basis_points ≤ 1000)
    (hok : release_funds st (some cfg) true ckOk fkOk = Except.ok r) :
    r.fee_amount = st.escrow.amount * cfg.fee_basis_points / 10000 ∧
    r.seller_amount = st.escrow.amount - r.fee_amount ∧
    r.fee_amount + r.seller_amount = st.escrow.amount := by
  obtain ⟨hst, fee, sellerAmt, escrowL, feeL, hfs, hle, hmax, hr⟩ := release_funds_ok_elim hok
  obtain ⟨hfee, hfle, hsa, hmle, hel, hfl⟩ := fee_step_ok_elim hfs
  subst hr
  refine ⟨hfee, hsa, ?_⟩
  simp only [hsa]
  omega

/-- Witness for `release_funds_fee_conservation`: a successful release of a
10000000-lamport escrow at 250 basis points pays fee 250000 and seller
9750000, which sum to the amount. -/
theorem release_funds_fee_conservation_witness :
    (releaseDemoResult.fee_amount = stActive.escrow.amount * cfgDemo.fee_basis_points / 10000 ∧
     releaseDemoResult.seller_amount = stActive.escrow.amount - releaseDemoResult.fee_amount ∧
     releaseDemoResult.fee_amount + releaseDemoResult.seller_amount = stActive.escrow.amount) :=
  release_funds_fee_conservation stActive cfgDemo true true releaseDemoResult
    (by decide) (by decide)

/-- Claim C2: a successful `resolve_dispute` with resolution `Split` credits
the buyer `half = amount / 2` and the seller `amount - half` (the odd unit
goes to the seller), these sum to `amount` for every amount including odd
ones, and the escrow status becomes `Completed`. -/
theorem resolve_dispute_split_conservation (st : St) (arb : Arbiter) (st2 : St)
    (hok : resolve_dispute st arb DisputeResolution.Split = Except.ok st2) :
    st2.buyerLamports = st.buyerLamports + st.escrow.amount / 2 ∧
    st2.sellerLamports = st.sellerLamports + (st.escrow.amount - st.escrow.amount / 2) ∧
    st.escrow.amount / 2 + (st.escrow.amount - st.escrow.amount / 2) = st.escrow.amount ∧
    st2.escrow.status = EscrowStatus.Completed := by
  obtain ⟨hst, harb, hle, hb, hs, h2⟩ := resolve_dispute_split_ok_elim hok
  subst h2
  refine ⟨rfl, rfl, ?_, rfl⟩
  have := Nat.div_le_self st.escrow.amount 2
  omega

/-- Witness for `resolve_dispute_split_conservation`: a successful split of a
10000000-lamport disputed escrow credits 5000000 to each party and completes
the escrow. -/
theorem resolve_dispute_split_conservation_witness :
    splitDemoResult.buyerLamports = stDisputed.buyerLamports + stDisputed.escrow.amount / 2 ∧
    splitDemoResult.sellerLamports
      = stDisputed.sellerLamports + (stDisputed.escrow.amount - stDisputed.escrow.amount / 2) ∧
    stDisputed.escrow.amount / 2 + (stDisputed.escrow.amount - stDisputed.escrow.amount / 2)
      = stDisputed.escrow.amount ∧
    splitDemoResult.escrow.status = EscrowStatus.Completed :=
  resolve_dispute_split_conservation stDisputed arbDemo splitDemoResult (by decide)

/-- Claim C5 counterexample: `create_escrow` with buyer = seller and amount 0
fails with `InsufficientFunds`, not `InvalidParties` — the amount bounds are
checked before the parties check. -/
theorem create_escrow_same_parties_cex :
    create_escrow 7 7 0 0 0 0
      = Except.error (CreateError.escrowErr EscrowError.InsufficientFunds) ∧
    EscrowError.InsufficientFunds ≠ EscrowError.InvalidParties := by
  decide

/-- Claim C5 (amended): `create_escrow` with buyer = seller always fails and
creates no escrow record; the error is `InvalidParties` exactly when the
amount is within `[MIN_ESCROW_AMOUNT, MAX_ESCROW_AMOUNT]`, otherwise the
amount validation fires first (`InsufficientFunds` below the minimum,
`InvalidAmount` above the maximum). -/
theorem create_escrow_same_parties_fails (x amount buyerLamports : Nat) (now : Int)
    (bump : Nat) :
    create_escrow x x amount buyerLamports now bump =
      Except.error (CreateError.escrowErr
        (if amount < MIN_ESCROW_AMOUNT then EscrowError.InsufficientFunds
         else if MAX_ESCROW_AMOUNT < amount then EscrowError.InvalidAmount
         else EscrowError.InvalidParties)) := by
  unfold create_escrow
  rcases Nat.lt_or_ge amount MIN_ESCROW_AMOUNT with hlt | hge
  · rw [if_pos (by omega), if_pos hlt]
  · rcases Nat.lt_or_ge MAX_ESCROW_AMOUNT amount with hgt | hle
    · rw [if_neg (by omega), if_pos (by omega), if_neg (by omega), if_pos hgt]
    · rw [if_neg (by omega), if_neg (by omega), if_pos (by simp),
        if_neg (by omega), if_neg (by omega)]

/-- Claim C6 counterexample: `create_escrow` with the in-range parties 1 ≠ 2
and amount 9999999 (one below `MIN_ESCROW_AMOUNT`) fails with
`InsufficientFunds`, not the claimed `InvalidAmount`. -/
theorem create_escrow_below_min_cex :
    create_escrow 1 2 9999999 99999999 0 0
      = Except.error (CreateError.escrowErr EscrowError.InsufficientFunds) ∧
    EscrowError.InsufficientFunds ≠ EscrowError.InvalidAmount := by
  decide

/-- Claim C6 (amended): for every amount outside
`[MIN_ESCROW_AMOUNT, MAX_ESCROW_AMOUNT]`, `create_escrow` fails before any
value moves and no escrow record is created; the error is
`InsufficientFunds` for amounts below the minimum and `InvalidAmount` for
amounts above the maximum. -/
theorem create_escrow_amount_bounds (buyer seller amount buyerLamports : Nat) (now : Int)
    (bump : Nat)
    (h : amount < MIN_ESCROW_AMOUNT ∨ MAX_ESCROW_AMOUNT < amount) :
    create_escrow buyer seller amount buyerLamports now bump =
      Except.error (CreateError.escrowErr
        (if amount < MIN_ESCROW_AMOUNT then EscrowError.InsufficientFunds
         else EscrowError.InvalidAmount)) := by
  unfold create_escrow
  rcases h with hlt | hgt
  · rw [if_pos (by omega), if_pos hlt]
  · rcases Nat.lt_or_ge amount MIN_ESCROW_AMOUNT with hlt | hge
    · rw [if_pos (by omega), if_pos hlt]
    · rw [if_neg (by omega), if_pos (by omega), if_neg (by omega)]

/-- Witness for `create_escrow_amount_bounds` at amount 0 (below the
minimum): the call fails with `InsufficientFunds`. -/
theorem create_escrow_amount_bounds_witness :
    create_escrow 1 2 0 500 0 0 =
      Except.error (CreateError.escrowErr
        (if 0 < MIN_ESCROW_AMOUNT then EscrowError.InsufficientFunds
         else EscrowError.InvalidAmount)) :=
  create_escrow_amount_bounds 1 2 0 500 0 0 (Or.inl (by decide))

/-- Claim C8: the reputation counters are saturating and monotone: each
increment raises its counter by one unless it already equals `u64::MAX`, in
which case it is left unchanged; the other counter is untouched, the counter
never decreases, never exceeds `u64::MAX`, and no error is raised (the
increment operations are total). -/
theorem reputation_counters_saturate (r : Reputation)
    (hs : r.successful_trades ≤ u64Max) (hf : r.failed_trades ≤ u64Max) :
    (r.increment_successful.successful_trades
        = if r.successful_trades = u64Max then r.successful_trades
          else r.successful_trades + 1) ∧
    r.increment_successful.failed_trades = r.failed_trades ∧
    r.successful_trades ≤ r.increment_successful.successful_trades ∧
    r.increment_successful.successful_trades ≤ u64Max ∧
    (r.increment_failed.failed_trades
        = if r.failed_trades = u64Max then r.failed_trades else r.failed_trades + 1) ∧
    r.increment_failed.successful_trades = r.successful_trades ∧
    r.failed_trades ≤ r.increment_failed.failed_trades ∧
    r.increment_failed.failed_trades ≤ u64Max := by
  simp only [Reputation.increment_successful, Reputation.increment_failed, saturating_add]
  refine ⟨?_, trivial, ?_, ?_, ?_, trivial, ?_, ?_⟩ <;> first
    | (split <;> omega)
    | omega

/-- Witness for `reputation_counters_saturate` at counters (3, 4). -/
theorem reputation_counters_saturate_witness :
    (Reputation.increment_successful
        { user := 1, successful_trades := 3, failed_trades := 4 }).successful_trades = 4 ∧
    (Reputation.increment_failed
        { user := 1, successful_trades := 3, failed_trades := 4 }).failed_trades = 5 := by
  obtain ⟨h1, -, -, -, h5, -, -, -⟩ :=
    reputation_counters_saturate { user := 1, successful_trades := 3, failed_trades := 4 }
      (by decide) (by decide)
  rw [h1, h5]
  exact ⟨by decide, by decide⟩

/-- Claim C3: on an escrow whose status is terminal (`Completed` or
`Cancelled`), every settlement operation fails with `InvalidState` — an
error aborts the transaction, so the escrow record is left unchanged.
Moreover `release_funds` (with no fee accounts and adequate balances)
succeeds if and only if the status is `Active`, and repeating it on the
state it produced fails with `InvalidState`. -/
theorem terminal_status_rejects_settlement (st stA : St) (config : Option Config)
    (p ckOk fkOk : Bool) (party : Nat) (arb : Arbiter) (res : DisputeResolution)
    (reserve : Nat)
    (hterm : st.escrow.status = EscrowStatus.Completed ∨
      st.escrow.status = EscrowStatus.Cancelled)
    (hparty : st.escrow.buyer = party ∨ st.escrow.seller = party)
    (hbal : stA.escrow.amount ≤ stA.escrowLamports)
    (hadd : stA.sellerLamports + stA.escrow.amount ≤ u64Max) :
    release_funds st config p ckOk fkOk = Except.error EscrowError.InvalidState ∧
    cancel_escrow st = Except.error EscrowError.InvalidState ∧
    raise_dispute st party = Except.error EscrowError.InvalidState ∧
    refund_buyer st reserve = Except.error EscrowError.InvalidState ∧
    resolve_dispute st arb res = Except.error EscrowError.InvalidState ∧
    ((∃ r, release_funds stA none p ckOk fkOk = Except.ok r) ↔
      stA.escrow.status = EscrowStatus.Active) ∧
    (∀ r : ReleaseResult, release_funds stA none p ckOk fkOk = Except.ok r →
      release_funds r.st none p ckOk fkOk = Except.error EscrowError.InvalidState) := by
  have hne : st.escrow.status ≠ EscrowStatus.Active := by
    rcases hterm with h | h <;> simp [h]
  have hni : st.escrow.status ≠ EscrowStatus.Initialized := by
    rcases hterm with h | h <;> simp [h]
  have hnd : st.escrow.status ≠ EscrowStatus.Disputed := by
    rcases hterm with h | h <;> simp [h]
  refine ⟨release_funds_not_active config p ckOk fkOk hne,
    cancel_escrow_not_cancellable ⟨hni, hne⟩,
    raise_dispute_not_active hparty hne,
    refund_buyer_not_disputed reserve hnd,
    resolve_dispute_not_disputed arb res hnd, ?_, ?_⟩
  · constructor
    · rintro ⟨r, hr⟩
      exact (release_funds_ok_elim hr).1
    · intro hA
      refine ⟨_, release_funds_ok_intro stA none p ckOk fkOk 0 stA.escrow.amount
        stA.escrowLamports stA.feeCollectorLamports hA
        (fee_step_no_config _ _ _ _ _ _) hbal hadd⟩
  · intro r hr
    obtain ⟨hstA, fee, sellerAmt, escrowL, feeL, hfs, hle, hmax, hreq⟩ :=
      release_funds_ok_elim hr
    subst hreq
    exact release_funds_not_active none p ckOk fkOk (by simp)

/-- Witness for `terminal_status_rejects_settlement` at a completed escrow
(all five operations rejected) and at an active escrow with adequate
balances (release succeeds, and is rejected when repeated). -/
theorem terminal_status_rejects_settlement_witness :
    release_funds stCompleted none true true true = Except.error EscrowError.InvalidState ∧
    cancel_escrow stCompleted = Except.error EscrowError.InvalidState ∧
    raise_dispute stCompleted 1 = Except.error EscrowError.InvalidState ∧
    refund_buyer stCompleted 2000000 = Except.error EscrowError.InvalidState ∧
    resolve_dispute stCompleted arbDemo DisputeResolution.Split
      = Except.error EscrowError.InvalidState ∧
    ((∃ r, release_funds stActive none true true true = Except.ok r) ↔
      stActive.escrow.status = EscrowStatus.Active) ∧
    (∀ r : ReleaseResult, release_funds stActive none true true true = Except.ok r →
      release_funds r.st none true true true = Except.error EscrowError.InvalidState) :=
  terminal_status_rejects_settlement stCompleted stActive none true true true 1 arbDemo
    DisputeResolution.Split 2000000 (Or.inl (by decide)) (Or.inl (by decide))
    (by decide) (by decide)

/-- Claim C4 counterexample: cancelling an active escrow whose buyer and
seller reputation records both exist succeeds and moves the escrow to the
terminal status `Cancelled`, yet leaves both reputation records exactly
unchanged — in particular neither resulting record equals its incremented
form (successful or failed), so `cancel_escrow` updates neither
reputation. -/
theorem cancel_escrow_ignores_reputation_cex :
    cancel_escrow stActive = Except.ok cancelDemoResult ∧
    cancelDemoResult.escrow.status = EscrowStatus.Cancelled ∧
    stActive.buyerRep = some { user := 1, successful_trades := 3, failed_trades := 4 } ∧
    stActive.sellerRep = some { user := 2, successful_trades := 5, failed_trades := 6 } ∧
    cancelDemoResult.buyerRep = stActive.buyerRep ∧
    cancelDemoResult.sellerRep = stActive.sellerRep ∧
    cancelDemoResult.buyerRep ≠ stActive.buyerRep.map Reputation.increment_successful ∧
    cancelDemoResult.buyerRep ≠ stActive.buyerRep.map Reputation.increment_failed ∧
    cancelDemoResult.sellerRep ≠ stActive.sellerRep.map Reputation.increment_successful ∧
    cancelDemoResult.sellerRep ≠ stActive.sellerRep.map Reputation.increment_failed := by
  decide

/-- Claim C4 (amended): of the four operations that move an escrow to a
terminal status — `release_funds` (to `Completed`), `cancel_escrow` (to
`Cancelled`), `refund_buyer` (to `Cancelled`) and `resolve_dispute` (to
`Completed`) — `release_funds`, `refund_buyer` and `resolve_dispute` update
the reputation records of both parties when those records exist
(successful/failed according to the outcome), but `cancel_escrow`, although
it also reaches a terminal status, updates neither reputation record. -/
theorem terminal_transitions_reputation_updates (s1 s2 s3 s4 : St) (config : Option Config)
    (p ckOk fkOk : Bool) (reserve : Nat) (arb : Arbiter) (res : DisputeResolution)
    (r1 : ReleaseResult) (r2 r3 r4 : St)
    (h1 : release_funds s1 config p ckOk fkOk = Except.ok r1)
    (h2 : cancel_escrow s2 = Except.ok r2)
    (h3 : refund_buyer s3 reserve = Except.ok r3)
    (h4 : resolve_dispute s4 arb res = Except.ok r4) :
    r1.st.escrow.status = EscrowStatus.Completed ∧
    r2.escrow.status = EscrowStatus.Cancelled ∧
    r3.escrow.status = EscrowStatus.Cancelled ∧
    r4.escrow.status = EscrowStatus.Completed ∧
    r1.st.buyerRep = s1.buyerRep.map Reputation.increment_successful ∧
    r1.st.sellerRep = s1.sellerRep.map Reputation.increment_successful ∧
    r2.buyerRep = s2.buyerRep ∧
    r2.sellerRep = s2.sellerRep ∧
    r3.buyerRep = s3.buyerRep.map Reputation.increment_failed ∧
    r3.sellerRep = s3.sellerRep.map Reputation.increment_failed ∧
    r4.buyerRep = s4.buyerRep.map (match res with
      | DisputeResolution.FavorBuyer => Reputation.increment_successful
      | DisputeResolution.FavorSeller => Reputation.increment_failed
      | DisputeResolution.Split => Reputation.increment_failed) ∧
    r4.sellerRep = s4.sellerRep.map (match res with
      | DisputeResolution.FavorBuyer => Reputation.increment_failed
      | DisputeResolution.FavorSeller => Reputation.increment_successful
      | DisputeResolution.Split => Reputation.increment_failed) := by
  obtain ⟨-, fee, sellerAmt, escrowL, feeL, -, -, -, hr1⟩ := release_funds_ok_elim h1
  subst hr1
  obtain ⟨-, -, -, hr2⟩ := cancel_escrow_ok_elim h2
  subst hr2
  obtain ⟨-, -, -, hr3⟩ := refund_buyer_ok_elim h3
  subst hr3
  have h4all : r4.escrow.status = EscrowStatus.Completed ∧
      r4.buyerRep = s4.buyerRep.map (match res with
        | DisputeResolution.FavorBuyer => Reputation.increment_successful
        | DisputeResolution.FavorSeller => Reputation.increment_failed
        | DisputeResolution.Split => Reputation.increment_failed) ∧
      r4.sellerRep = s4.sellerRep.map (match res with
        | DisputeResolution.FavorBuyer => Reputation.increment_failed
        | DisputeResolution.FavorSeller => Reputation.increment_successful
        | DisputeResolution.Split => Reputation.increment_failed) := by
    cases res
    · obtain ⟨-, -, -, e⟩ := resolve_dispute_favor_buyer_ok_elim h4
      subst e
      exact ⟨rfl, rfl, rfl⟩
    · obtain ⟨-, -, -, e⟩ := resolve_dispute_favor_seller_ok_elim h4
      subst e
      exact ⟨rfl, rfl, rfl⟩
    · obtain ⟨-, -, -, -, -, e⟩ := resolve_dispute_split_ok_elim h4
      subst e
      exact ⟨rfl, rfl, rfl⟩
  exact ⟨rfl, rfl, rfl, h4all.1, rfl, rfl, rfl, rfl, rfl, rfl, h4all.2.1, h4all.2.2⟩

/-- Witness for `terminal_transitions_reputation_updates`: concrete
successful runs of all four terminal transitions from the demo states, with
both reputation records present. -/
theorem terminal_transitions_reputation_updates_witness :
    releaseNoFeeDemoResult.st.escrow.status = EscrowStatus.Completed ∧
    cancelDemoResult.escrow.status = EscrowStatus.Cancelled ∧
    refundDemoResult.escrow.status = EscrowStatus.Cancelled ∧
    splitDemoResult.escrow.status = EscrowStatus.Completed ∧
    releaseNoFeeDemoResult.st.buyerRep
      = stActive.buyerRep.map Reputation.increment_successful ∧
    releaseNoFeeDemoResult.st.sellerRep
      = stActive.sellerRep.map Reputation.increment_successful ∧
    cancelDemoResult.buyerRep = stActive.buyerRep ∧
    cancelDemoResult.sellerRep = stActive.sellerRep ∧
    refundDemoResult.buyerRep = stDisputed.buyerRep.map Reputation.increment_failed ∧
    refundDemoResult.sellerRep = stDisputed.sellerRep.map Reputation.increment_failed ∧
    splitDemoResult.buyerRep = stDisputed.buyerRep.map Reputation.increment_failed ∧
    splitDemoResult.sellerRep = stDisputed.sellerRep.map Reputation.increment_failed :=
  terminal_transitions_reputation_updates stActive stActive stDisputed stDisputed none
    true true true 2000000 arbDemo DisputeResolution.Split
    releaseNoFeeDemoResult cancelDemoResult refundDemoResult splitDemoResult
    (by decide) (by decide) (by decide) (by decide)

/-- Claim C7: on a `Disputed` escrow with available balance above the rent
reserve (and counters below `u64::MAX`), `refund_buyer` transfers
`escrow_lamports - rent_reserve` to the buyer, keeps the reserve in the
escrow account, sets status `Cancelled` and increments the failed-trade
counter of each reputation record that exists; on a non-`Disputed` escrow it
fails with `InvalidState`; and on a `Disputed` escrow whose balance does not
exceed the reserve it fails with `InsufficientFunds`. -/
theorem refund_buyer_behavior (st : St) (reserve : Nat)
    (hbmax : ∀ r ∈ st.buyerRep, r.failed_trades < u64Max)
    (hsmax : ∀ r ∈ st.sellerRep, r.failed_trades < u64Max) :
    (st.escrow.status = EscrowStatus.Disputed → reserve < st.escrowLamports →
      st.buyerLamports + (st.escrowLamports - reserve) ≤ u64Max →
      refund_buyer st reserve = Except.ok { st with
        escrow := { st.escrow with status := EscrowStatus.Cancelled },
        escrowLamports := reserve,
        buyerLamports := st.buyerLamports + (st.escrowLamports - reserve),
        buyerRep := st.buyerRep.map
          (fun r => { r with failed_trades := r.failed_trades + 1 }),
        sellerRep := st.sellerRep.map
          (fun r => { r with failed_trades := r.failed_trades + 1 }) }) ∧
    (st.escrow.status ≠ EscrowStatus.Disputed →
      refund_buyer st reserve = Except.error EscrowError.InvalidState) ∧
    (st.escrow.status = EscrowStatus.Disputed → st.escrowLamports ≤ reserve →
      refund_buyer st reserve = Except.error EscrowError.InsufficientFunds) := by
  refine ⟨?_, fun h => refund_buyer_not_disputed reserve h,
    fun h1 h2 => refund_buyer_insufficient h1 h2⟩
  intro hst hgt hmax
  have hmb : st.buyerRep.map Reputation.increment_failed
      = st.buyerRep.map (fun r => { r with failed_trades := r.failed_trades + 1 }) := by
    cases hb : st.buyerRep with
    | none => rfl
    | some r =>
      have hlt := hbmax r (by simp [hb, Option.mem_def])
      simp [Reputation.increment_failed, saturating_add_one_of_lt hlt]
  have hms : st.sellerRep.map Reputation.increment_failed
      = st.sellerRep.map (fun r => { r with failed_trades := r.failed_trades + 1 }) := by
    cases hb : st.sellerRep with
    | none => rfl
    | some r =>
      have hlt := hsmax r (by simp [hb, Option.mem_def])
      simp [Reputation.increment_failed, saturating_add_one_of_lt hlt]
  have h := refund_buyer_ok_intro st reserve hst hgt hmax
  rw [hmb, hms] at h
  exact h

/-- Witness for `refund_buyer_behavior`: refunding the disputed demo escrow
with rent reserve 2000000 returns 10000000 to the buyer and marks both
reputations failed. -/
theorem refund_buyer_behavior_witness :
    refund_buyer stDisputed 2000000 = Except.ok { stDisputed with
      escrow := { stDisputed.escrow with status := EscrowStatus.Cancelled },
      escrowLamports := 2000000,
      buyerLamports := stDisputed.buyerLamports + (stDisputed.escrowLamports - 2000000),
      buyerRep := stDisputed.buyerRep.map
        (fun r => { r with failed_trades := r.failed_trades + 1 }),
      sellerRep := stDisputed.sellerRep.map
        (fun r => { r with failed_trades := r.failed_trades + 1 }) } :=
  (refund_buyer_behavior stDisputed 2000000
    (by
      intro r hr
      have hv : r = { user := 1, successful_trades := 3, failed_trades := 4 } := by
        have : stDisputed.buyerRep
            = some { user := 1, successful_trades := 3, failed_trades := 4 } := by decide
        rw [this] at hr
        simpa [Option.mem_def, eq_comm] using hr
      subst hv
      decide)
    (by
      intro r hr
      have hv : r = { user := 2, successful_trades := 5, failed_trades := 6 } := by
        have : stDisputed.sellerRep
            = some { user := 2, successful_trades := 5, failed_trades := 6 } := by decide
        rw [this] at hr
        simpa [Option.mem_def, eq_comm] using hr
      subst hv
      decide)).1 (by decide) (by decide) (by decide)

/-- Claim C9: a successful `release_funds` deducts no fee when the optional
config account or the optional fee collector account is missing — the fee is
zero, the seller receives the full escrow amount and the fee collector
balance is untouched; conversely a positive fee can only arise when both
optional accounts were supplied. -/
theorem release_funds_no_fee_without_both (st : St) (config : Option Config)
    (p ckOk fkOk : Bool) (r : ReleaseResult)
    (hok : release_funds st config p ckOk fkOk = Except.ok r) :
    ((config = none ∨ p = false) →
      r.fee_amount = 0 ∧ r.seller_amount = st.escrow.amount ∧
      r.st.sellerLamports = st.sellerLamports + st.escrow.amount ∧
      r.st.feeCollectorLamports = st.feeCollectorLamports) ∧
    (0 < r.fee_amount → config.isSome = true ∧ p = true) := by
  obtain ⟨hst, fee, sellerAmt, escrowL, feeL, hfs, hle, hmax, hr⟩ := release_funds_ok_elim hok
  subst hr
  constructor
  · intro hcase
    have hz : fee_step st.escrow.amount st.escrowLamports st.feeCollectorLamports config p
        ckOk fkOk
        = Except.ok (0, st.escrow.amount, st.escrowLamports, st.feeCollectorLamports) := by
      rcases hcase with h | h
      · subst h
        exact fee_step_no_config _ _ _ _ _ _
      · subst h
        exact fee_step_no_collector _ _ _ _ _ _
    rw [hfs] at hz
    simp only [Except.ok.injEq, Prod.mk.injEq] at hz
    obtain ⟨e1, e2, e3, e4⟩ := hz
    subst e1
    subst e2
    subst e4
    exact ⟨rfl, rfl, rfl, rfl⟩
  · intro hpos
    cases config with
    | none =>
      rw [fee_step_no_config] at hfs
      simp only [Except.ok.injEq, Prod.mk.injEq] at hfs
      have hpos2 : 0 < fee := hpos
      omega
    | some cfg =>
      cases p with
      | false =>
        rw [fee_step_no_collector] at hfs
        simp only [Except.ok.injEq, Prod.mk.injEq] at hfs
        have hpos2 : 0 < fee := hpos
        omega
      | true => exact ⟨rfl, rfl⟩

/-- Witness for `release_funds_no_fee_without_both`: releasing the demo
escrow without a config account charges no fee and pays the seller the full
amount. -/
theorem release_funds_no_fee_without_both_witness :
    (((none : Option Config) = none ∨ true = false) →
      releaseNoFeeDemoResult.fee_amount = 0 ∧
      releaseNoFeeDemoResult.seller_amount = stActive.escrow.amount ∧
      releaseNoFeeDemoResult.st.sellerLamports
        = stActive.sellerLamports + stActive.escrow.amount ∧
      releaseNoFeeDemoResult.st.feeCollectorLamports = stActive.feeCollectorLamports) ∧
    (0 < releaseNoFeeDemoResult.fee_amount →
      (none : Option Config).isSome = true ∧ true = true) :=
  release_funds_no_fee_without_both stActive none true true true releaseNoFeeDemoResult
    (by decide)

/-- Claim C10: every successful settlement operation on an existing escrow
(`release_funds`, `cancel_escrow`, `raise_dispute`, `refund_buyer`,
`resolve_dispute`) leaves the record's `buyer`, `seller`, `amount`,
`created_at` and `bump` fields unchanged; the only record field mutated is
`status` (shown by the new status value of each operation). -/
theorem settlement_preserves_record_fields (s1 s2 s3 s4 s5 : St) (config : Option Config)
    (p ckOk fkOk : Bool) (party : Nat) (reserve : Nat) (arb : Arbiter)
    (res : DisputeResolution) (r1 : ReleaseResult) (r2 r3 r4 r5 : St)
    (h1 : release_funds s1 config p ckOk fkOk = Except.ok r1)
    (h2 : cancel_escrow s2 = Except.ok r2)
    (h3 : raise_dispute s3 party = Except.ok r3)
    (h4 : refund_buyer s4 reserve = Except.ok r4)
    (h5 : resolve_dispute s5 arb res = Except.ok r5) :
    SameCore r1.st.escrow s1.escrow ∧ SameCore r2.escrow s2.escrow ∧
    SameCore r3.escrow s3.escrow ∧ SameCore r4.escrow s4.escrow ∧
    SameCore r5.escrow s5.escrow ∧
    r1.st.escrow.status = EscrowStatus.Completed ∧
    r2.escrow.status = EscrowStatus.Cancelled ∧
    r3.escrow.status = EscrowStatus.Disputed ∧
    r4.escrow.status = EscrowStatus.Cancelled ∧
    r5.escrow.status = EscrowStatus.Completed := by
  obtain ⟨-, fee, sa, el, fl, -, -, -, e1⟩ := release_funds_ok_elim h1
  subst e1
  obtain ⟨-, -, -, e2⟩ := cancel_escrow_ok_elim h2
  subst e2
  obtain ⟨-, -, e3⟩ := raise_dispute_ok_elim h3
  subst e3
  obtain ⟨-, -, -, e4⟩ := refund_buyer_ok_elim h4
  subst e4
  have hcore5 : SameCore r5.escrow s5.escrow ∧ r5.escrow.status = EscrowStatus.Completed := by
    cases res
    · obtain ⟨-, -, -, e5⟩ := resolve_dispute_favor_buyer_ok_elim h5
      subst e5
      exact ⟨⟨rfl, rfl, rfl, rfl, rfl⟩, rfl⟩
    · obtain ⟨-, -, -, e5⟩ := resolve_dispute_favor_seller_ok_elim h5
      subst e5
      exact ⟨⟨rfl, rfl, rfl, rfl, rfl⟩, rfl⟩
    · obtain ⟨-, -, -, -, -, e5⟩ := resolve_dispute_split_ok_elim h5
      subst e5
      exact ⟨⟨rfl, rfl, rfl, rfl, rfl⟩, rfl⟩
  exact ⟨⟨rfl, rfl, rfl, rfl, rfl⟩, ⟨rfl, rfl, rfl, rfl, rfl⟩, ⟨rfl, rfl, rfl, rfl, rfl⟩,
    ⟨rfl, rfl, rfl, rfl, rfl⟩, hcore5.1, rfl, rfl, rfl, rfl, hcore5.2⟩

/-- Witness for `settlement_preserves_record_fields`: concrete successful
runs of all five settlement operations from the demo states. -/
theorem settlement_preserves_record_fields_witness :
    SameCore releaseNoFeeDemoResult.st.escrow stActive.escrow ∧
    SameCore cancelDemoResult.escrow stActive.escrow ∧
    SameCore stDisputed.escrow stActive.escrow ∧
    SameCore refundDemoResult.escrow stDisputed.escrow ∧
    SameCore splitDemoResult.escrow stDisputed.escrow ∧
    releaseNoFeeDemoResult.st.escrow.status = EscrowStatus.Completed ∧
    cancelDemoResult.escrow.status = EscrowStatus.Cancelled ∧
    stDisputed.escrow.status = EscrowStatus.Disputed ∧
    refundDemoResult.escrow.status = EscrowStatus.Cancelled ∧
    splitDemoResult.escrow.status = EscrowStatus.Completed :=
  settlement_preserves_record_fields stActive stActive stActive stDisputed stDisputed none
    true true true 1 2000000 arbDemo DisputeResolution.Split
    releaseNoFeeDemoResult cancelDemoResult stDisputed refundDemoResult splitDemoResult
    (by decide) (by decide) (by decide) (by decide) (by decide)

end DecentralizedEscrow
